import Mathlib

/-!
Shallow embedding of `src/SwimMouseCursor.cpp` (cursor-confinement utility).

OS calls are modelled by environment records whose fields hold the results
the OS would return for the queries the code performs; each embedded
function mirrors the control flow of its C++ source function over such an
environment.  Screen coordinates are `Int` (C++ `LONG`/`int`; all values in
range, no overflow).  C++ signed integer division truncates toward zero and
is modelled by `Int.tdiv`.
-/

/-- A Win32 RECT: screen-coordinate rectangle. -/
structure Rect where
  left : Int
  top : Int
  right : Int
  bottom : Int
deriving DecidableEq, Repr

/-- WM_KEYDOWN message id. -/
def WM_KEYDOWN : Nat := 0x0100

/-- WM_SYSKEYDOWN message id. -/
def WM_SYSKEYDOWN : Nat := 0x0104

/-- VK_ESCAPE virtual-key code. -/
def VK_ESCAPE : Nat := 0x1B

/-- HC_ACTION hook code. -/
def HC_ACTION : Int := 0

/-- CTRL_C_EVENT console control type. -/
def CTRL_C_EVENT : Nat := 0

/-- CTRL_BREAK_EVENT console control type. -/
def CTRL_BREAK_EVENT : Nat := 1

/-- CTRL_CLOSE_EVENT console control type. -/
def CTRL_CLOSE_EVENT : Nat := 2

/-- CTRL_LOGOFF_EVENT console control type. -/
def CTRL_LOGOFF_EVENT : Nat := 5

/-- CTRL_SHUTDOWN_EVENT console control type. -/
def CTRL_SHUTDOWN_EVENT : Nat := 6

/-- The target executable name, `TARGET_EXE = L"Minecraft.Windows.exe"`. -/
def targetExeChars : List Char := "Minecraft.Windows.exe".data

/-- The window-title fallback substring, `L"Minecraft"`. -/
def titleNeedle : List Char := "Minecraft".data

/-- Wide-string prefix test used by the `wcsstr` model. -/
def startsWithChars : List Char → List Char → Bool
  | _, [] => true
  | [], _ :: _ => false
  | a :: as, b :: bs => a == b && startsWithChars as bs

/-- Model of `wcsstr(hay, needle) != nullptr`: some suffix of `hay` starts
with `needle`. -/
def strContainsChars (needle : List Char) : List Char → Bool
  | [] => startsWithChars [] needle
  | c :: t => startsWithChars (c :: t) needle || strContainsChars needle t

/-- Model of `_wcsicmp(a, b) == 0`: case-insensitive equality
(per-character `towlower`, ASCII). -/
def wcsicmpEqChars (a b : List Char) : Bool :=
  a.map Char.toLower == b.map Char.toLower

/-- Model of `PathFindFileNameW`: the component after the last backslash. -/
def pathFindFileName (p : List Char) : List Char :=
  (p.reverse.takeWhile (fun c => c != '\\')).reverse

/-- Environment for the Window Locator: results of the OS queries made by
`IsMinecraftWindow` and `GetProcessExeName` for one window handle.
`hwnd = 0` models a null handle; `validWindow` is the `IsWindow` result. -/
structure LocEnv where
  hwnd : Nat
  validWindow : Bool
  pid : Nat
  openProcessOk : Bool
  queryImageOk : Bool
  imagePath : List Char
  title : List Char

/-- Embedding of `GetProcessExeName` (lines 55-71): empty string when the
pid is 0, `OpenProcess` fails, or `QueryFullProcessImageNameW` fails;
otherwise the file-name component of the image path. -/
def getProcessExeName (e : LocEnv) : List Char :=
  if e.pid == 0 then []
  else if !e.openProcessOk then []
  else if e.queryImageOk then pathFindFileName e.imagePath
  else []

/-- Embedding of `IsMinecraftWindow` (lines 73-89): false for a null or
stale handle; true on a case-insensitive executable-name match; otherwise
falls back to testing whether the title contains "Minecraft". -/
def isMinecraftWindow (e : LocEnv) : Bool :=
  if e.hwnd == 0 || !e.validWindow then false
  else
    let exe := getProcessExeName e
    if !exe.isEmpty && wcsicmpEqChars exe targetExeChars then true
    else strContainsChars titleNeedle e.title

/-- Embedding of `RecenterCursor` (lines 321-330): given the
`GetWindowRect` result (none = the call failed, so no `SetCursorPos`),
the cursor position that gets set. -/
def recenterCursor (wr : Option Rect) : Option (Int × Int) :=
  match wr with
  | none => none
  | some wr =>
      some (Int.tdiv (wr.left + wr.right) 2, Int.tdiv (wr.top + wr.bottom) 2)

/-- Environment for one invocation of the low-level keyboard hook:
the hook arguments and the results of the OS queries the callback makes.
`clippingEnabled` is the global toggle flag (present in the process state,
available to the callback, whether or not it reads it). -/
structure KbEnv where
  nCode : Int
  wParam : Nat
  vkCode : Nat
  recenterKey : Nat
  clippingEnabled : Bool
  fg : Nat
  fgIsMinecraft : Bool
  fgVisibleTopmost : Bool
  fgWindowRect : Option Rect

/-- Embedding of `LowLevelKeyboardProc` (lines 386-411).  Returns the
cursor position set by a recenter action (if one fired) paired with
whether the event was forwarded to the next hook (`CallNextHookEx`);
the C++ function returns `CallNextHookEx(...)` on every path. -/
def lowLevelKeyboardProc (e : KbEnv) : Option (Int × Int) × Bool :=
  let effect :=
    if e.nCode == HC_ACTION then
      if e.wParam == WM_KEYDOWN || e.wParam == WM_SYSKEYDOWN then
        if e.fg != 0 && e.fgIsMinecraft && e.fgVisibleTopmost then
          if e.vkCode == e.recenterKey || e.vkCode == VK_ESCAPE then
            recenterCursor e.fgWindowRect
          else none
        else none
      else none
    else none
  (effect, true)

/-- Environment for the Geometry Classifier: results of the OS queries
made by `GetWindowClipRect` for one window.  `attempts i` holds the
outcome of the i-th `ClientToScreen` attempt pair: `none` if either
conversion call failed, otherwise the converted top-left and bottom-right
screen points of the client area. -/
structure ClipEnv where
  isWindow : Bool
  isVisible : Bool
  windowRect : Option Rect
  clientRect : Option Rect
  attempts : Nat → Option ((Int × Int) × (Int × Int))

/-- One `ClientToScreen` attempt succeeds when both calls succeed and the
converted coordinates satisfy `bottomRight > topLeft` on both axes
(the validation inside the retry loop, lines 268-276). -/
def convertAttemptOk (r : Option ((Int × Int) × (Int × Int))) : Bool :=
  match r with
  | some (tl, br) => decide (tl.1 < br.1) && decide (tl.2 < br.2)
  | none => false

/-- The retry loop of lines 265-286: up to three attempts, first
validated success wins. -/
def tryClientToScreen (e : ClipEnv) : Option ((Int × Int) × (Int × Int)) :=
  if convertAttemptOk (e.attempts 0) then e.attempts 0
  else if convertAttemptOk (e.attempts 1) then e.attempts 1
  else if convertAttemptOk (e.attempts 2) then e.attempts 2
  else none

/-- Embedding of `GetWindowClipRect` (lines 225-319).  `none` models
`return false` (no region); `some r` models `return true` with
`outClipRect = r`. -/
def getWindowClipRect (e : ClipEnv) : Option Rect :=
  if !e.isWindow || !e.isVisible then none
  else
    match e.windowRect with
    | none => none
    | some wr =>
      if wr.right ≤ wr.left ∨ wr.bottom ≤ wr.top then none
      else
        match e.clientRect with
        | none => some wr
        | some cr =>
          if cr.right ≤ 0 ∨ cr.bottom ≤ 0 then some wr
          else
            match tryClientToScreen e with
            | none => some wr
            | some (tl, br) =>
              if tl.1 < wr.left - 10 ∨ tl.2 < wr.top - 10 ∨
                 br.1 > wr.right + 10 ∨ br.2 > wr.bottom + 10 then some wr
              else
                let out : Rect := ⟨tl.1, tl.2, br.1, br.2⟩
                if out.right ≤ out.left ∨ out.bottom ≤ out.top then some wr
                else some out

/-- Containment of rectangle `a` in rectangle `b`, edge by edge. -/
def rectWithin (a b : Rect) : Prop :=
  b.left ≤ a.left ∧ b.top ≤ a.top ∧ a.right ≤ b.right ∧ a.bottom ≤ b.bottom

/-- `r` inflated by `d` logical units on every edge. -/
def rectInflate (r : Rect) (d : Int) : Rect :=
  ⟨r.left - d, r.top - d, r.right + d, r.bottom + d⟩

/-- A C-style `for (x = start; x < stop; x += step)` value list, by fuel;
the fuel is sufficient whenever `step ≥ 1`. -/
def forRangeAux (stop step : Int) : Nat → Int → List Int
  | 0, _ => []
  | fuel + 1, x => if x < stop then x :: forRangeAux stop step fuel (x + step) else []

/-- The values taken by a C-style for-loop from `start` while `< stop`
stepping by `step`.  In the source the step is `(edge span)/5` and the
loop range is nonempty only when the span exceeds 20, so a nonpositive
step coincides with an empty range. -/
def forRange (start stop step : Int) : List Int :=
  if step ≤ 0 then []
  else forRangeAux stop step ((stop - start).toNat + 1) start

/-- Sample x-coordinates of the occlusion grid (line 189). -/
def gridXs (wr : Rect) : List Int :=
  forRange (wr.left + 10) (wr.right - 10) (Int.tdiv (wr.right - wr.left) 5)

/-- Sample y-coordinates of the occlusion grid (line 191). -/
def gridYs (wr : Rect) : List Int :=
  forRange (wr.top + 10) (wr.bottom - 10) (Int.tdiv (wr.bottom - wr.top) 5)

/-- All sampled grid points (outer x loop, inner y loop). -/
def gridPoints (wr : Rect) : List (Int × Int) :=
  (gridXs wr).flatMap (fun x => (gridYs wr).map (fun y => (x, y)))

/-- Environment for the strict visibility check: results of the OS
queries made by `IsWindowActuallyVisibleAndTopmost`.  Window handles are
`Nat` with 0 for null; `root` is `GetAncestor _ GA_ROOT`;
`windowFromPoint` is `WindowFromPoint`; `capture` is `GetCapture`. -/
structure VisEnv where
  hwnd : Nat
  validWindow : Bool
  visible : Bool
  iconic : Bool
  fgWindow : Nat
  windowRect : Option Rect
  gtiOk : Bool
  gtiActive : Nat
  root : Nat → Nat
  windowFromPoint : Int → Int → Nat
  capture : Nat

/-- Whether one sampled point hit-tests into the target window's
top-level ancestry (lines 195-204). -/
def pointPasses (e : VisEnv) (p : Int × Int) : Bool :=
  let w := e.windowFromPoint p.1 p.2
  w != 0 && (e.root w == e.root e.hwnd)

/-- `numChecks` of the sampling loop: every grid point is counted. -/
def numChecksOf (e : VisEnv) : Nat :=
  match e.windowRect with
  | none => 0
  | some wr => (gridPoints wr).length

/-- `passedChecks` of the sampling loop: grid points whose hit test
resolves to the target's root. -/
def passedChecksOf (e : VisEnv) : Nat :=
  match e.windowRect with
  | none => 0
  | some wr => (gridPoints wr).countP (pointPasses e)

/-- Embedding of `IsWindowActuallyVisibleAndTopmost` (lines 127-223). -/
def isWindowActuallyVisibleAndTopmost (e : VisEnv) : Bool :=
  if e.hwnd == 0 || !e.validWindow || !e.visible then false
  else if e.iconic then false
  else if e.fgWindow != e.hwnd then false
  else
    match e.windowRect with
    | none => false
    | some wr =>
      if wr.right ≤ wr.left ∨ wr.bottom ≤ wr.top then false
      else if e.gtiOk && e.gtiActive != 0 && e.gtiActive != e.hwnd &&
              e.root e.gtiActive != e.root e.hwnd then false
      else
        let centerX := Int.tdiv (wr.left + wr.right) 2
        let centerY := Int.tdiv (wr.top + wr.bottom) 2
        let windowAtCenter := e.windowFromPoint centerX centerY
        if windowAtCenter != 0 && e.root windowAtCenter != e.root e.hwnd then false
        else
          let numChecks := (gridPoints wr).length
          let passedChecks := (gridPoints wr).countP (pointPasses e)
          if numChecks > 0 ∧ passedChecks < numChecks * 9 / 10 then false
          else if e.capture != 0 && e.capture != e.hwnd &&
                  e.root e.capture != e.root e.hwnd then false
          else true

/-- The mutable state of the polling loop in `wmain` together with the
OS-level cursor-confinement primitive.  `clippingEnabled`,
`windowBeingMoved` and `running` are the process globals; `lastActive`,
`lastClipped` and `needsClipUpdate` are the loop locals; `clipSet` is the
region currently held by `ClipCursor` (`none` = unconfined). -/
structure LoopState where
  clippingEnabled : Bool
  windowBeingMoved : Bool
  running : Bool
  lastActive : Nat
  lastClipped : Bool
  needsClipUpdate : Bool
  clipSet : Option Rect
deriving DecidableEq, Repr

/-- The state at entry to the polling loop (lines 468-474, with the
globals' initializers). -/
def initState : LoopState :=
  { clippingEnabled := true, windowBeingMoved := false, running := true,
    lastActive := 0, lastClipped := false, needsClipUpdate := false,
    clipSet := none }

/-- Observations one loop iteration makes of the OS: how many
`WM_HOTKEY` (id 1) messages the pump drains, the drag-detection result,
the foreground window and the results of querying it. -/
structure TickEnv where
  hotkeyToggles : Nat
  movingWindow : Bool
  fg : Nat
  fgIsMinecraft : Bool
  fgVisibleTopmost : Bool
  clipRect : Option Rect
  getClipOk : Bool
  screenRect : Rect

/-- The message pump (lines 479-501): each `WM_HOTKEY` with id 1 flips
`clippingEnabled`; when the flip lands on false, `ClipCursor(nullptr)`
releases confinement and `lastClipped` is cleared. -/
def pumpMessages (s : LoopState) : Nat → LoopState
  | 0 => s
  | n + 1 =>
    let s1 := { s with clippingEnabled := !s.clippingEnabled }
    let s2 := if !s1.clippingEnabled then
        { s1 with clipSet := none, lastClipped := false }
      else s1
    pumpMessages s2 n

/-- The recurring release idiom `if (lastClipped) { ClipCursor(nullptr);
lastClipped = false; }` (lines 529-533, 543-547, 562-567, 610-615,
621-626). -/
def releaseIfClipped (s : LoopState) : LoopState :=
  if s.lastClipped then { s with clipSet := none, lastClipped := false } else s

/-- The move/resize transition block (lines 509-524): on a change of the
drag flag, either release confinement (drag started) or force a clip-rect
update (drag ended). -/
def moveTransition (s : LoopState) (moving : Bool) : LoopState :=
  if moving != s.windowBeingMoved then
    let sm := { s with windowBeingMoved := moving }
    if moving then { sm with clipSet := none, lastClipped := false }
    else { sm with needsClipUpdate := true }
  else s

/-- The foreground-change block (lines 552-570): on a new foreground
window, force a refresh if it is the target, otherwise release; record
the new foreground window either way. -/
def fgChangeUpdate (s : LoopState) (e : TickEnv) : LoopState :=
  if e.fg != s.lastActive then
    let sf :=
      if e.fg != 0 && e.fgIsMinecraft then { s with needsClipUpdate := true }
      else releaseIfClipped s
    { sf with lastActive := e.fg }
  else s

/-- The confine block for a freshly classified region (lines 575-616):
apply the region (always, lines 593-605) after deciding whether this is a
forced, first, or materially changed application; release when the region
is degenerate. -/
def applyClip (s : LoopState) (e : TickEnv) (clip : Rect) : LoopState :=
  if clip.left < clip.right ∧ clip.top < clip.bottom then
    let currentClip := s.clipSet.getD e.screenRect
    let clipChanged := !e.getClipOk ||
      decide ((currentClip.left - clip.left).natAbs > 2) ||
      decide ((currentClip.top - clip.top).natAbs > 2) ||
      decide ((currentClip.right - clip.right).natAbs > 2) ||
      decide ((currentClip.bottom - clip.bottom).natAbs > 2)
    if s.needsClipUpdate || !s.lastClipped || clipChanged then
      { s with clipSet := some clip, lastClipped := true, needsClipUpdate := false }
    else
      { s with clipSet := some clip }
  else releaseIfClipped s

/-- One polling-interval body (lines 503-628), applied after the message
pump: drag suppression, the disabled-release path, foreground-change
bookkeeping, and the classify-and-confine decision.  When
`GetWindowClipRect` fails (`e.clipRect = none`) the source does nothing
(no release). -/
def pollTick (s : LoopState) (e : TickEnv) : LoopState :=
  let s1 := moveTransition s e.movingWindow
  if e.movingWindow then releaseIfClipped s1
  else if !s1.clippingEnabled then releaseIfClipped s1
  else
    let s2 := fgChangeUpdate s1 e
    if e.fg != 0 && e.fgIsMinecraft && e.fgVisibleTopmost then
      match e.clipRect with
      | none => s2
      | some clip => applyClip s2 e clip
    else releaseIfClipped s2

/-- One full loop iteration: drain the message queue, then run one
polling-interval body. -/
def tick (s : LoopState) (e : TickEnv) : LoopState :=
  pollTick (pumpMessages s e.hotkeyToggles) e

/-- States the polling loop can be in at an iteration boundary. -/
inductive Reachable : LoopState → Prop
  | init : Reachable initState
  | step {s : LoopState} (e : TickEnv) : Reachable s → Reachable (tick s e)

/-- Whether a console control type is one of the five termination signals
handled by `ConsoleCtrlHandler` (lines 415-421). -/
def isTerminationSignal (t : Nat) : Bool :=
  t == CTRL_C_EVENT || t == CTRL_CLOSE_EVENT || t == CTRL_BREAK_EVENT ||
  t == CTRL_LOGOFF_EVENT || t == CTRL_SHUTDOWN_EVENT

/-- Embedding of `ConsoleCtrlHandler` (lines 413-427): on a termination
signal, stop the loop and release confinement (`ClipCursor(nullptr)`);
returns whether the signal was handled.  `lastClipped` is a loop local
the handler cannot touch. -/
def consoleCtrlHandler (s : LoopState) (t : Nat) : LoopState × Bool :=
  if isTerminationSignal t then
    ({ s with running := false, clipSet := none }, true)
  else (s, false)

/-- The cleanup after the loop exits (lines 634-642): unhook, then
`ClipCursor(nullptr)`, then unregister the hotkey. -/
def exitCleanup (s : LoopState) : LoopState :=
  { s with clipSet := none }

/-- Counts whether a step released the confinement primitive: 1 when the
primitive went from set to unset, else 0. -/
def clipReleases (before after : LoopState) : Nat :=
  if before.clipSet.isSome ∧ after.clipSet = none then 1 else 0

/-- The serialized termination path: the console control handler runs
between iterations, the loop observes `running = false` and exits, and
the end-of-`wmain` cleanup runs.  Returns the final state and the number
of times the confinement primitive transitioned from set to unset. -/
def shutdownSequence (s : LoopState) (t : Nat) : LoopState × Nat :=
  let s1 := (consoleCtrlHandler s t).1
  let s2 := exitCleanup s1
  (s2, clipReleases s s1 + clipReleases s1 s2)

/-- A classifier environment whose client area converts to 5 units
outside the window rectangle on every edge: inside the 10-unit slop the
code tolerates, so no fallback is taken. -/
def clipEnvSlop : ClipEnv :=
  { isWindow := true, isVisible := true, windowRect := some ⟨0, 0, 100, 100⟩,
    clientRect := some ⟨0, 0, 90, 90⟩,
    attempts := fun _ => some ((-5, -5), (105, 105)) }

/-- A classifier environment in which every `ClientToScreen` attempt
fails, exercising the outer-rectangle fallback. -/
def clipEnvNoConvert : ClipEnv :=
  { isWindow := true, isVisible := true, windowRect := some ⟨0, 0, 100, 100⟩,
    clientRect := some ⟨0, 0, 90, 90⟩,
    attempts := fun _ => none }

/-- A valid, visible window whose `GetWindowRect` result is degenerate. -/
def clipEnvDegenerate : ClipEnv :=
  { isWindow := true, isVisible := true, windowRect := some ⟨0, 0, 0, 0⟩,
    clientRect := none, attempts := fun _ => none }

/-- A classifier environment with a well-behaved client area. -/
def clipEnvClient : ClipEnv :=
  { isWindow := true, isVisible := true, windowRect := some ⟨0, 0, 100, 100⟩,
    clientRect := some ⟨0, 0, 80, 80⟩,
    attempts := fun _ => some ((5, 5), (85, 85)) }

/-- A visibility environment for a 100x100 window whose 16-point sample
grid has exactly 14 points hit-testing to the target (87.5%): the two
points (10,10) and (10,30) resolve to a different top-level window. -/
def visEnvPartialOcclusion : VisEnv :=
  { hwnd := 1, validWindow := true, visible := true, iconic := false,
    fgWindow := 1, windowRect := some ⟨0, 0, 100, 100⟩, gtiOk := true,
    gtiActive := 1, root := fun w => w,
    windowFromPoint := fun x y => if x == 10 && (y == 10 || y == 30) then 2 else 1,
    capture := 0 }

/-- Like `visEnvPartialOcclusion` but with only 13 of 16 sample points
(81.25%) resolving to the target. -/
def visEnvOccluded : VisEnv :=
  { visEnvPartialOcclusion with
    windowFromPoint := fun x y =>
      if x == 10 && (y == 10 || y == 30 || y == 50) then 2 else 1 }

/-- A tick observation that drains exactly one toggle-hotkey message and
sees no target window. -/
def toggleOffEnv : TickEnv :=
  { hotkeyToggles := 1, movingWindow := false, fg := 0, fgIsMinecraft := false,
    fgVisibleTopmost := false, clipRect := none, getClipOk := true,
    screenRect := ⟨0, 0, 1920, 1080⟩ }

/-- A loop state in which the cursor is currently confined. -/
def confinedState : LoopState :=
  { initState with lastClipped := true, clipSet := some ⟨0, 0, 10, 10⟩ }

/-- Helper: the case-insensitive comparison never matches the (nonempty)
target executable name against an empty process name. -/
theorem wcsicmpEq_nil_target : wcsicmpEqChars [] targetExeChars = false := by
  decide

/-- C6: `IsMinecraftWindow` returns false (rather than failing) on a null
or stale handle, and otherwise returns true exactly when the owning
process's executable file name equals the target name case-insensitively
or, failing that, the window title contains the target substring. -/
theorem isMinecraftWindow_characterization (e : LocEnv) :
    isMinecraftWindow e =
      (decide (e.hwnd ≠ 0) && e.validWindow &&
        (wcsicmpEqChars (getProcessExeName e) targetExeChars ||
         strContainsChars titleNeedle e.title)) := by
  unfold isMinecraftWindow
  by_cases h0 : e.hwnd = 0
  · simp [h0]
  · by_cases hv : e.validWindow
    · simp only [h0, hv, decide_not]
      cases hexe : getProcessExeName e with
      | nil =>
          simp [wcsicmpEq_nil_target, h0]
      | cons c t =>
          simp only [List.isEmpty, Bool.not_false, Bool.true_and]
          by_cases hi : wcsicmpEqChars (c :: t) targetExeChars = true
          · simp [hi, h0]
          · simp only [Bool.not_eq_true] at hi
            simp [hi, h0]
    · simp [hv]

/-- C8: the low-level keyboard callback forwards every key event to the
next hook (returns `CallNextHookEx`), whether or not the recenter action
fired, so the toggle and recenter bindings never consume a key. -/
theorem keyboardHookNeverConsumes (e : KbEnv) :
    (lowLevelKeyboardProc e).2 = true := rfl

/-- C9: the recenter action moves the cursor to the geometric center of
the target window's outer bounding rectangle (integer midpoint of each
axis); in particular a window at (100,100)-(900,700) recenters to
(500,400). -/
theorem recenterMovesToCenter :
    (∀ wr : Rect, recenterCursor (some wr) =
      some (Int.tdiv (wr.left + wr.right) 2, Int.tdiv (wr.top + wr.bottom) 2)) ∧
    recenterCursor (some ⟨100, 100, 900, 700⟩) = some (500, 400) :=
  ⟨fun _ => rfl, by decide⟩

/-- C10: the keyboard-hook callback's behaviour (recenter effect and
pass-through decision) is identical for both values of the
clipping-enabled flag, so disabling clipping cannot disable the recenter
or cancel binding. -/
theorem recenterIndependentOfClippingFlag (e : KbEnv) (b₁ b₂ : Bool) :
    lowLevelKeyboardProc { e with clippingEnabled := b₁ } =
    lowLevelKeyboardProc { e with clippingEnabled := b₂ } := rfl

/-- C7: every region the Geometry Classifier returns, through any
fallback path of `GetWindowClipRect`, has positive width and height. -/
theorem clipRegionNondegenerate (e : ClipEnv) (r : Rect)
    (h : getWindowClipRect e = some r) :
    r.left < r.right ∧ r.top < r.bottom := by
  unfold getWindowClipRect at h
  split at h
  · exact absurd h (by simp)
  · split at h
    · exact absurd h (by simp)
    · rename_i wr _
      split at h
      · exact absurd h (by simp)
      · rename_i hnd
        push_neg at hnd
        split at h
        · cases h; exact ⟨hnd.1, hnd.2⟩
        · split at h
          · cases h; exact ⟨hnd.1, hnd.2⟩
          · split at h
            · cases h; exact ⟨hnd.1, hnd.2⟩
            · rename_i tl br _
              split at h
              · cases h; exact ⟨hnd.1, hnd.2⟩
              · dsimp only at h
                split at h
                · cases h; exact ⟨hnd.1, hnd.2⟩
                · rename_i hout
                  cases h
                  push_neg at hout
                  exact ⟨hout.1, hout.2⟩

/-- Witness for C7 at a concrete classifier environment. -/
theorem clipRegionNondegenerate_witness :
    (⟨5, 5, 85, 85⟩ : Rect).left < (⟨5, 5, 85, 85⟩ : Rect).right ∧
    (⟨5, 5, 85, 85⟩ : Rect).top < (⟨5, 5, 85, 85⟩ : Rect).bottom :=
  clipRegionNondegenerate clipEnvClient ⟨5, 5, 85, 85⟩ (by decide)


/-- Counterexample to C3 as stated: a client area converted 5 units
outside the window rectangle on every edge passes the 10-unit slop check
of `GetWindowClipRect`, so the produced region is not contained in the
outer window rectangle. -/
theorem clipRegionEscapesWindow :
    clipEnvSlop.windowRect = some ⟨0, 0, 100, 100⟩ ∧
    getWindowClipRect clipEnvSlop = some ⟨-5, -5, 105, 105⟩ ∧
    ¬ rectWithin ⟨-5, -5, 105, 105⟩ ⟨0, 0, 100, 100⟩ := by
  refine ⟨rfl, by decide, ?_⟩
  intro hcontra
  exact absurd hcontra.1 (by decide)

/-- C3 (amended): under the client-area policy every region
`GetWindowClipRect` produces is contained in the outer window rectangle
inflated by the 10-unit slop on every edge, and when all three
`ClientToScreen` attempts fail the region is exactly the outer window
rectangle. -/
theorem clipRegionWithinSlop (e : ClipEnv) (wr r : Rect)
    (hwr : e.windowRect = some wr) (h : getWindowClipRect e = some r) :
    rectWithin r (rectInflate wr 10) ∧ (tryClientToScreen e = none → r = wr) := by
  have hwithin : rectWithin wr (rectInflate wr 10) := by
    simp only [rectWithin, rectInflate]
    omega
  obtain ⟨bw, bv, owr, ocr, att⟩ := e
  simp only at hwr
  subst hwr
  unfold getWindowClipRect at h
  simp only at h
  split at h
  · exact Option.noConfusion h
  · split at h
    · exact Option.noConfusion h
    · cases ocr with
      | none =>
          simp only at h
          cases h
          exact ⟨hwithin, fun _ => rfl⟩
      | some cr =>
          simp only at h
          split at h
          · cases h
            exact ⟨hwithin, fun _ => rfl⟩
          · cases hts : tryClientToScreen ⟨bw, bv, some wr, some cr, att⟩ with
            | none =>
                rw [hts] at h
                cases h
                exact ⟨hwithin, fun _ => rfl⟩
            | some p =>
                obtain ⟨tl, br⟩ := p
                rw [hts] at h
                simp only at h
                split at h
                · cases h
                  exact ⟨hwithin, fun hn => Option.noConfusion hn⟩
                · rename_i hslop
                  push_neg at hslop
                  dsimp only at h
                  split at h
                  · cases h
                    exact ⟨hwithin, fun hn => Option.noConfusion hn⟩
                  · cases h
                    refine ⟨⟨?_, ?_, ?_, ?_⟩, fun hn => Option.noConfusion hn⟩ <;>
                      simp [rectInflate] <;> omega

/-- Witness for C3 (amended) at an environment where every conversion
attempt fails. -/
theorem clipRegionWithinSlop_witness :
    rectWithin ⟨0, 0, 100, 100⟩ (rectInflate ⟨0, 0, 100, 100⟩ 10) ∧
    (tryClientToScreen clipEnvNoConvert = none →
      (⟨0, 0, 100, 100⟩ : Rect) = ⟨0, 0, 100, 100⟩) :=
  clipRegionWithinSlop clipEnvNoConvert ⟨0, 0, 100, 100⟩ ⟨0, 0, 100, 100⟩ rfl
    (by decide)

/-- Counterexample to C4 as stated: a valid and visible window whose
outer-rectangle query returns a degenerate rectangle is classified
Invalid, a reason beyond an invalid handle or invisibility. -/
theorem classifyFailsOnDegenerateRect :
    clipEnvDegenerate.isWindow = true ∧ clipEnvDegenerate.isVisible = true ∧
    getWindowClipRect clipEnvDegenerate = none :=
  ⟨rfl, rfl, by decide⟩

/-- Helper: the client-area classifier produces a region whenever the
window is valid and visible and its outer rectangle is nondegenerate. -/
theorem classifySucceeds (e : ClipEnv) (wr : Rect) (hw : e.isWindow = true)
    (hv : e.isVisible = true) (hwr : e.windowRect = some wr)
    (hdeg : ¬(wr.right ≤ wr.left ∨ wr.bottom ≤ wr.top)) :
    ∃ r, getWindowClipRect e = some r := by
  obtain ⟨bw, bv, owr, ocr, att⟩ := e
  simp only at hw hv hwr
  subst hw; subst hv; subst hwr
  unfold getWindowClipRect
  simp only [Bool.not_true, Bool.or_self, Bool.false_eq_true, if_false]
  rw [if_neg hdeg]
  cases ocr with
  | none => exact ⟨wr, rfl⟩
  | some cr =>
    simp only
    split
    · exact ⟨wr, rfl⟩
    · cases hts : tryClientToScreen ⟨true, true, some wr, some cr, att⟩ with
      | none => exact ⟨wr, rfl⟩
      | some p =>
        obtain ⟨tl, br⟩ := p
        simp only
        split
        · exact ⟨wr, rfl⟩
        · dsimp only
          split
          · exact ⟨wr, rfl⟩
          · exact ⟨_, rfl⟩

/-- C4 (amended): the client-area classifier returns Invalid exactly
when the handle is invalid, the window is not visible, the
outer-rectangle query fails, or the outer rectangle is degenerate; in
every other case it returns a region. -/
theorem classifyInvalidIff (e : ClipEnv) :
    getWindowClipRect e = none ↔
      (e.isWindow = false ∨ e.isVisible = false ∨ e.windowRect = none ∨
        ∃ wr, e.windowRect = some wr ∧ (wr.right ≤ wr.left ∨ wr.bottom ≤ wr.top)) := by
  constructor
  · intro h
    by_cases hw : e.isWindow
    · by_cases hv : e.isVisible
      · cases hwr : e.windowRect with
        | none => exact Or.inr (Or.inr (Or.inl rfl))
        | some wr =>
          by_cases hdeg : wr.right ≤ wr.left ∨ wr.bottom ≤ wr.top
          · exact Or.inr (Or.inr (Or.inr ⟨wr, rfl, hdeg⟩))
          · obtain ⟨r, hr⟩ := classifySucceeds e wr hw hv hwr hdeg
            rw [hr] at h
            exact Option.noConfusion h
      · exact Or.inr (Or.inl (by simpa using hv))
    · exact Or.inl (by simpa using hw)
  · rintro (h | h | h | ⟨wr, hwr, hdeg⟩)
    · unfold getWindowClipRect
      rw [h]
      simp
    · unfold getWindowClipRect
      rw [h]
      simp
    · unfold getWindowClipRect
      rw [h]
      split <;> rfl
    · unfold getWindowClipRect
      rw [hwr]
      split
      · rfl
      · simp only
        rw [if_pos hdeg]

/-- Counterexample to C5 as stated: with a 16-point sample grid and 14
points (87.5 percent, fewer than 90 percent) resolving to the target's
ancestry, and every other check passing, the strict visibility
verification still reports the window visible, because the code compares
against `numChecks * 9 / 10` in integer arithmetic (14 is not below
`16 * 9 / 10 = 14`). -/
theorem occlusionCheckMissesBelowNinety :
    passedChecksOf visEnvPartialOcclusion * 10 <
      numChecksOf visEnvPartialOcclusion * 9 ∧
    isWindowActuallyVisibleAndTopmost visEnvPartialOcclusion = true :=
  ⟨by decide, by decide⟩

/-- C5 (amended): the strict visibility verification reports the window
occluded (returns false) whenever the number of passing sample points is
strictly below `numChecks * 9 / 10` in integer arithmetic. -/
theorem occlusionCheckThreshold (e : VisEnv) (hn : 0 < numChecksOf e)
    (hp : passedChecksOf e < numChecksOf e * 9 / 10) :
    isWindowActuallyVisibleAndTopmost e = false := by
  unfold numChecksOf at hn hp
  unfold passedChecksOf at hp
  unfold isWindowActuallyVisibleAndTopmost
  split
  · rfl
  split
  · rfl
  split
  · rfl
  cases hwr : e.windowRect with
  | none => rfl
  | some wr =>
      rw [hwr] at hn hp
      simp only at hn hp
      simp only
      split
      · rfl
      · split
        · rfl
        · split
          · rfl
          · have hc : (gridPoints wr).length > 0 ∧
                (gridPoints wr).countP (pointPasses e) <
                  (gridPoints wr).length * 9 / 10 := ⟨hn, hp⟩
            rw [if_pos hc]

/-- Witness for C5 (amended): 13 of 16 points is below the integer
threshold of 14, so the window is reported occluded. -/
theorem occlusionCheckThreshold_witness :
    0 < numChecksOf visEnvOccluded ∧
    passedChecksOf visEnvOccluded < numChecksOf visEnvOccluded * 9 / 10 ∧
    isWindowActuallyVisibleAndTopmost visEnvOccluded = false :=
  ⟨by decide, by decide,
    occlusionCheckThreshold visEnvOccluded (by decide) (by decide)⟩

/-- Helper: the message pump preserves "disabled implies released":
every hotkey toggle that lands on disabled releases confinement at once. -/
theorem pumpPreservesCleared (n : Nat) (s : LoopState)
    (h : s.clippingEnabled = false → s.lastClipped = false ∧ s.clipSet = none) :
    (pumpMessages s n).clippingEnabled = false →
      (pumpMessages s n).lastClipped = false ∧ (pumpMessages s n).clipSet = none := by
  induction n generalizing s with
  | zero => exact h
  | succ n ih =>
    rw [pumpMessages]
    apply ih
    cases hb : s.clippingEnabled <;> simp [hb]

/-- Helper: releasing-if-clipped never changes the toggle flag. -/
theorem releaseIfClippedKeepsEnabled (s : LoopState) :
    (releaseIfClipped s).clippingEnabled = s.clippingEnabled := by
  unfold releaseIfClipped
  split <;> rfl

/-- Helper: the move/resize transition never changes the toggle flag. -/
theorem moveTransitionKeepsEnabled (s : LoopState) (m : Bool) :
    (moveTransition s m).clippingEnabled = s.clippingEnabled := by
  unfold moveTransition
  dsimp only
  repeat' split
  all_goals rfl

/-- Helper: the foreground-change block never changes the toggle flag. -/
theorem fgChangeUpdateKeepsEnabled (s : LoopState) (e : TickEnv) :
    (fgChangeUpdate s e).clippingEnabled = s.clippingEnabled := by
  unfold fgChangeUpdate
  dsimp only
  split
  · split
    · rfl
    · exact releaseIfClippedKeepsEnabled s
  · rfl

/-- Helper: the confine block never changes the toggle flag. -/
theorem applyClipKeepsEnabled (s : LoopState) (e : TickEnv) (clip : Rect) :
    (applyClip s e clip).clippingEnabled = s.clippingEnabled := by
  unfold applyClip
  dsimp only
  split
  · split <;> rfl
  · exact releaseIfClippedKeepsEnabled s

/-- Helper: the polling body never changes the toggle flag. -/
theorem pollTickKeepsEnabled (s : LoopState) (e : TickEnv) :
    (pollTick s e).clippingEnabled = s.clippingEnabled := by
  unfold pollTick
  dsimp only
  split
  · rw [releaseIfClippedKeepsEnabled, moveTransitionKeepsEnabled]
  · split
    · rw [releaseIfClippedKeepsEnabled, moveTransitionKeepsEnabled]
    · split
      · cases e.clipRect with
        | none => rw [fgChangeUpdateKeepsEnabled, moveTransitionKeepsEnabled]
        | some clip =>
            rw [applyClipKeepsEnabled, fgChangeUpdateKeepsEnabled,
              moveTransitionKeepsEnabled]
      · rw [releaseIfClippedKeepsEnabled, fgChangeUpdateKeepsEnabled,
          moveTransitionKeepsEnabled]

/-- Helper: the move/resize transition keeps the released state released. -/
theorem moveTransitionKeepsCleared (s : LoopState) (m : Bool)
    (h : s.lastClipped = false ∧ s.clipSet = none) :
    (moveTransition s m).lastClipped = false ∧ (moveTransition s m).clipSet = none := by
  unfold moveTransition
  dsimp only
  repeat' split
  all_goals simp_all

/-- Helper: releasing-if-clipped keeps the released state released. -/
theorem releaseIfClippedKeepsCleared (s : LoopState)
    (h : s.lastClipped = false ∧ s.clipSet = none) :
    (releaseIfClipped s).lastClipped = false ∧ (releaseIfClipped s).clipSet = none := by
  unfold releaseIfClipped
  split <;> simp_all

/-- Helper: one polling body preserves "disabled implies released". -/
theorem pollTickPreservesCleared (s : LoopState) (e : TickEnv)
    (h : s.clippingEnabled = false → s.lastClipped = false ∧ s.clipSet = none) :
    (pollTick s e).clippingEnabled = false →
      (pollTick s e).lastClipped = false ∧ (pollTick s e).clipSet = none := by
  intro h2
  rw [pollTickKeepsEnabled] at h2
  have hc := moveTransitionKeepsCleared s e.movingWindow (h h2)
  have he : (moveTransition s e.movingWindow).clippingEnabled = false := by
    rw [moveTransitionKeepsEnabled]
    exact h2
  unfold pollTick
  dsimp only
  split
  · exact releaseIfClippedKeepsCleared _ hc
  · rw [if_pos ?hcond]
    case hcond => rw [he]; rfl
    exact releaseIfClippedKeepsCleared _ hc

/-- Helper: one full loop iteration preserves "disabled implies
released". -/
theorem tickPreservesCleared (s : LoopState) (e : TickEnv)
    (h : s.clippingEnabled = false → s.lastClipped = false ∧ s.clipSet = none) :
    (tick s e).clippingEnabled = false →
      (tick s e).lastClipped = false ∧ (tick s e).clipSet = none :=
  pollTickPreservesCleared _ e (pumpPreservesCleared e.hotkeyToggles s h)

/-- C1: in every reachable loop state with the enabled flag false
(including the state one tick after the toggle hotkey turns it off while
confined), `lastClipped` is false and the OS confinement primitive is
unset: the clearing happens within the very tick that observes the flag. -/
theorem disabledImpliesUnconfined (s : LoopState) (h : Reachable s) :
    s.clippingEnabled = false → s.lastClipped = false ∧ s.clipSet = none := by
  induction h with
  | init => intro hd; exact absurd hd (by decide)
  | step e hr ih => exact tickPreservesCleared _ e ih

/-- Witness for C1: the state reached from the initial state by a tick
that drains one toggle hotkey has the flag off and confinement released. -/
theorem disabledImpliesUnconfined_witness :
    (tick initState toggleOffEnv).clippingEnabled = false ∧
    ((tick initState toggleOffEnv).lastClipped = false ∧
      (tick initState toggleOffEnv).clipSet = none) :=
  ⟨by decide,
    disabledImpliesUnconfined (tick initState toggleOffEnv)
      (Reachable.step toggleOffEnv Reachable.init) (by decide)⟩

/-- C2: when a termination signal arrives while the confinement
primitive is set, the serialized shutdown path unsets it exactly once
(the handler's `ClipCursor(nullptr)`; the unconditional cleanup call
after the loop finds it already unset) and the process exits with it
unset. -/
theorem terminationReleasesExactlyOnce (s : LoopState) (t : Nat)
    (ht : isTerminationSignal t = true) (hc : s.clipSet.isSome = true) :
    (shutdownSequence s t).2 = 1 ∧ (shutdownSequence s t).1.clipSet = none := by
  unfold shutdownSequence consoleCtrlHandler exitCleanup clipReleases
  rw [ht]
  simp [hc]

/-- Witness for C2: Ctrl-C while confined releases exactly once. -/
theorem terminationReleasesExactlyOnce_witness :
    (shutdownSequence confinedState CTRL_C_EVENT).2 = 1 ∧
    (shutdownSequence confinedState CTRL_C_EVENT).1.clipSet = none :=
  terminationReleasesExactlyOnce confinedState CTRL_C_EVENT (by decide) (by decide)
